import Mathlib

/-
Verification development for a small YouTube download web application
(single source file `downloader/views.py`).  The locally authored logic is
embedded shallowly: the URL normalizer (`sanitize_youtube_url`), the
retrying metadata fetcher (`get_yt_object`), the duration formatter
(`format_duration`), and the two request handlers (`home` and
`download_video`).  External collaborators (the pytube extraction library,
the filesystem, the network) are modelled as oracles; the stream-selection
primitives of the library are modelled from the specification of the
collaborator contract, since the library itself is not part of the
repository.
-/

namespace YtDl

/-- The exception taxonomy the handlers dispatch on.  `pytube`,
`videoUnavailable`, `ageRestricted` and `regexMatch` correspond to
PytubeError and its subclasses (VideoUnavailable, AgeRestrictedError,
RegexMatchError); `unexpected` is any exception outside the PytubeError
hierarchy, caught by the catch-all `except Exception` clauses.  Each
constructor carries the Python str of the exception. -/
inductive PyErr where
  | pytube (msg : String)
  | videoUnavailable (msg : String)
  | ageRestricted (msg : String)
  | regexMatch (msg : String)
  | unexpected (msg : String)
deriving DecidableEq, Repr

/-- The Python str of the exception. -/
def errStr : PyErr → String
  | .pytube m => m
  | .videoUnavailable m => m
  | .ageRestricted m => m
  | .regexMatch m => m
  | .unexpected m => m

/-- Whether the exception is in the PytubeError class hierarchy (and is
therefore caught by an `except PytubeError` clause).  RegexMatchError,
VideoUnavailable and AgeRestrictedError are all subclasses of PytubeError
in pytube, so only `unexpected` falls through to the catch-all clause. -/
def isPytube : PyErr → Bool
  | .unexpected _ => false
  | _ => true

/-- The regex character class `[a-zA-Z0-9_-]` of the video-id capture
group in `sanitize_youtube_url`. -/
def isIdChar (c : Char) : Bool :=
  ('a' ≤ c && c ≤ 'z') || ('A' ≤ c && c ≤ 'Z') || ('0' ≤ c && c ≤ '9') ||
    c == '_' || c == '-'

/-- The capture group `([a-zA-Z0-9_-]{11})` specialised to a count `n`:
consume exactly `n` characters of the class, failing if the input is too
short or a character is outside the class.  What follows the captured
characters is unconstrained, exactly as in the regex. -/
def takeN : Nat → List Char → Option (List Char)
  | 0, _ => some []
  | _ + 1, [] => none
  | n + 1, c :: cs => if isIdChar c then (takeN n cs).map (c :: ·) else none

/-- Match a literal character sequence at the front of the input,
returning the remainder on success. -/
def stripPre : List Char → List Char → Option (List Char)
  | [], s => some s
  | _ :: _, [] => none
  | a :: as, b :: bs => if a == b then stripPre as bs else none

/-- Boolean test that the first list is an initial segment of the
second. -/
def isPreB : List Char → List Char → Bool
  | [], _ => true
  | _ :: _, [] => false
  | a :: as, b :: bs => a == b && isPreB as bs

/-- The alternatives generated by the optional groups
`(?:https?:\/\/)?(?:www\.|m\.)?` that precede each host literal, listed
in the backtracking preference order of the Python regex engine (greedy
optionals, alternation left to right). -/
def schemeHosts : List (List Char) :=
  ["https://www.".data, "https://m.".data, "https://".data,
   "http://www.".data, "http://m.".data, "http://".data,
   "www.".data, "m.".data, "".data]

/-- Attempt a match of one pattern anchored at the current position: try
each scheme/host alternative in preference order, then the pattern
literal, then the 11-character capture group. -/
def tryAt (lit : List Char) (s : List Char) : Option (List Char) :=
  schemeHosts.findSome? fun pre =>
    match stripPre (pre ++ lit) s with
    | some rest => takeN 11 rest
    | none => none

/-- `re.search` for one pattern: scan positions left to right and return
the captured group of the leftmost match. -/
def search (lit : List Char) : List Char → Option (List Char)
  | [] => tryAt lit []
  | c :: rest =>
    match tryAt lit (c :: rest) with
    | some tok => some tok
    | none => search lit rest

/-- Host/path literal of the pattern `youtu.be/<id>`. -/
def lit1 : List Char := "youtu.be/".data

/-- Host/path literal of the pattern `youtube.com/watch?v=<id>`. -/
def lit2 : List Char := "youtube.com/watch?v=".data

/-- Host/path literal of the pattern `youtube.com/embed/<id>`. -/
def lit3 : List Char := "youtube.com/embed/".data

/-- Host/path literal of the pattern `youtube.com/v/<id>`. -/
def lit4 : List Char := "youtube.com/v/".data

/-- The four patterns of `sanitize_youtube_url`, in source order. -/
def patterns : List (List Char) := [lit1, lit2, lit3, lit4]

/-- The loop body of `sanitize_youtube_url`: try the patterns in order;
on a match whose captured group has length 11 return the capture,
otherwise fall through to the next pattern. -/
def sanitizeList (s : List Char) : Option (List Char) :=
  patterns.findSome? fun lit =>
    match search lit s with
    | some tok => if tok.length == 11 then some tok else none
    | none => none

/-- `sanitize_youtube_url` (views.py lines 16-30): extract the video id
from one of the four recognized URL shapes and re-emit the canonical
watch URL; raise RegexMatchError otherwise. -/
def sanitize_youtube_url (url : String) : Except PyErr String :=
  match sanitizeList url.data with
  | some tok => .ok ("https://www.youtube.com/watch?v=" ++ String.mk tok)
  | none => .error (.regexMatch "Invalid YouTube URL format")

/-- One pattern contributes nothing for the given input: either the
pattern does not match, or its captured token does not have length 11. -/
def patMisses (s : List Char) (lit : List Char) : Bool :=
  match search lit s with
  | none => true
  | some tok => tok.length != 11

/-- Decidable certificate (computed over the concrete part `conc` only)
that no pattern occurrence starts inside `conc` when an 11-character
identifier is appended after it: at every scan position, every
scheme/host alternative that fits inside the concrete part either
mismatches or is followed by a character outside the id class within the
next 11 characters. -/
def posOk (lit : List Char) (s : List Char) : Bool :=
  schemeHosts.all fun pre =>
    let cand := pre ++ lit
    if cand.length ≤ s.length then
      !(isPreB cand s && ((s.drop cand.length).take 11).all isIdChar)
    else true

/-- `posOk` at every suffix of the concrete part. -/
def noHit (lit : List Char) : List Char → Bool
  | [] => true
  | c :: rest => posOk lit (c :: rest) && noHit lit rest

/-- Zero-pad a number below 10 to two digits, as the %02d directives of
the str(timedelta) rendering do for minutes and seconds. -/
def pad2 (n : Nat) : String :=
  if n < 10 then "0" ++ toString n else toString n

/-- `format_duration` (views.py lines 32-34): str(timedelta(seconds=s))
for a non-negative integer second count.  Python renders hours without
padding, minutes and seconds with two digits, and prefixes a day count
(with plural handling) once the duration reaches one day. -/
def format_duration (seconds : Nat) : String :=
  let days := seconds / 86400
  let rem := seconds % 86400
  let h := rem / 3600
  let m := rem % 3600 / 60
  let s := rem % 60
  let hms := toString h ++ ":" ++ pad2 m ++ ":" ++ pad2 s
  if days == 0 then hms
  else if days == 1 then toString days ++ " day, " ++ hms
  else toString days ++ " days, " ++ hms

/-- The retry loop of `get_yt_object` (views.py lines 36-56).  The remote
construction (YouTube object creation, age-gate bypass and eager
metadata fetch) is an oracle `svc` from the attempt index to an optional
handle; `none` stands for any raised exception.  The result records the
outcome, the number of construction attempts performed, and the list of
backoff waits executed (time.sleep(2 ** attempt) runs only when further
attempts remain). -/
def getYtAux {α : Type} (svc : Nat → Option α) (maxRetries : Nat) :
    Nat → Nat → Nat → List Nat → Except PyErr α × Nat × List Nat
  | 0, _, tried, waits =>
    (.error (.pytube "Could not initialize YouTube object. Check your network or try another video."),
      tried, waits)
  | rem + 1, attempt, tried, waits =>
    match svc attempt with
    | some a => (.ok a, tried + 1, waits)
    | none =>
      if attempt < maxRetries - 1 then
        getYtAux svc maxRetries rem (attempt + 1) (tried + 1) (waits ++ [2 ^ attempt])
      else
        getYtAux svc maxRetries rem (attempt + 1) (tried + 1) waits

/-- `get_yt_object`: run the retry loop from attempt 0. -/
def get_yt_object {α : Type} (svc : Nat → Option α) (max_retries : Nat) :
    Except PyErr α × Nat × List Nat :=
  getYtAux svc max_retries max_retries 0 0 []

/-- A stream descriptor of the extraction library: resolution in pixels,
progressive flag, and container subtype. -/
structure VStream where
  resolution : Nat
  progressive : Bool
  subtype : String
deriving DecidableEq, Repr

/-- The resolution label of a stream, e.g. 720 ↦ "720p". -/
def resLabel (s : VStream) : String := toString s.resolution ++ "p"

/-- Keep the stream of larger resolution (first argument wins ties). -/
def pickHigh (a b : VStream) : VStream :=
  if a.resolution < b.resolution then b else a

/-- Keep the stream of smaller resolution (first argument wins ties). -/
def pickLow (a b : VStream) : VStream :=
  if b.resolution < a.resolution then b else a

/-- Modelled from the spec: the extraction library operation
`streams.get_highest_resolution()`, per the collaborator contract and the
quality policy of section 4.5 — the stream with maximum resolution among
the available encodings, or none when the collection is empty. -/
def get_highest_resolution (ss : List VStream) : Option VStream :=
  match ss with
  | [] => none
  | s :: rest => some (rest.foldl pickHigh s)

/-- Modelled from the spec: `streams.get_lowest_resolution()` — the
stream with minimum resolution, or none when the collection is empty. -/
def get_lowest_resolution (ss : List VStream) : Option VStream :=
  match ss with
  | [] => none
  | s :: rest => some (rest.foldl pickLow s)

/-- Modelled from the spec: `streams.get_by_resolution(q)` — the first
stream whose resolution label matches the requested label exactly, or
none. -/
def get_by_resolution (ss : List VStream) (q : String) : Option VStream :=
  ss.find? fun s => resLabel s == q

/-- The quality dispatch of `download_video` (views.py lines 112-117). -/
def selectStream (ss : List VStream) (quality : String) : Option VStream :=
  if quality == "highest" then get_highest_resolution ss
  else if quality == "lowest" then get_lowest_resolution ss
  else get_by_resolution ss quality

/-- The whitespace class of the Python str.strip / str.rstrip methods
(restricted to the ASCII whitespace characters). -/
def pyIsSpace (c : Char) : Bool :=
  c == ' ' || c == '\t' || c == '\n' || c == '\r' || c == '\x0b' || c == '\x0c'

/-- Python str.strip(): remove leading and trailing whitespace. -/
def pystrip (s : String) : String :=
  String.mk (((s.data.dropWhile pyIsSpace).reverse.dropWhile pyIsSpace).reverse)

/-- The title filter of `download_video` line 125: keep a character when
c.isalnum() or c in (' ', '-', '_'), then rstrip the result. -/
def safe_title (t : List Char) : List Char :=
  ((t.filter fun c => c.isAlphanum || c == ' ' || c == '-' || c == '_').reverse.dropWhile
    pyIsSpace).reverse

/-- The download filename of `download_video` lines 125-126:
sanitized title, underscore, video id, ".mp4" suffix. -/
def make_filename (title vid : String) : String :=
  String.mk (safe_title title.data) ++ "_" ++ vid ++ ".mp4"

/-- Follows the words of the specification for the filename policy:
strip all characters not alphanumeric, space, hyphen or underscore (that
is, keep a character unless it is none of those), then trim trailing
whitespace, then suffix with underscore, identifier and ".mp4". -/
def specFilename (title vid : String) : String :=
  String.mk
    (((title.data.filter fun c =>
        !(!c.isAlphanum && !(c == ' ') && !(c == '-') && !(c == '_'))).reverse.dropWhile
      pyIsSpace).reverse) ++ "_" ++ vid ++ ".mp4"

/-- Group the reversed digit list of a number in threes, as the
thousands-grouping format directive does. -/
def groupR : List Char → List Char
  | d1 :: d2 :: d3 :: d4 :: rest => d1 :: d2 :: d3 :: ',' :: groupR (d4 :: rest)
  | l => l

/-- The views rendering of `home` line 79: thousands-grouped view
count. -/
def commaFormat (n : Nat) : String :=
  String.mk ((groupR (toString n).data.reverse).reverse)

/-- Insert a stream into a list sorted by descending resolution. -/
def insertDesc (s : VStream) : List VStream → List VStream
  | [] => [s]
  | t :: ts => if t.resolution ≤ s.resolution then s :: t :: ts else t :: insertDesc s ts

/-- Modelled from the spec: the library ordering operation
`order_by('resolution').desc()` — the streams sorted by descending
resolution. -/
def sortDesc (ss : List VStream) : List VStream :=
  ss.foldr insertDesc []

/-- The video metadata handle the extraction library exposes per the
collaborator contract: title, author, length in seconds, view count,
thumbnail URL, video id and the stream collection. -/
structure Handle where
  title : String
  author : String
  length : Nat
  views : Nat
  thumbnail_url : String
  video_id : String
  streams : List VStream
deriving DecidableEq, Repr

/-- The rendering context assembled by the handlers (the keys of the
Python context dict, absent keys as `none`). -/
structure Ctx where
  error : Option String
  title : Option String
  duration : Option String
  views : Option String
  author : Option String
  thumbnail : Option String
  streams : Option (List VStream)
  video_id : Option String
  clean_url : Option String
  url : Option String
  success : Bool
deriving DecidableEq, Repr

/-- The empty context of a non-submission request. -/
def emptyCtx : Ctx :=
  ⟨none, none, none, none, none, none, none, none, none, none, false⟩

/-- Context carrying only an error message (the `home` error paths). -/
def homeErrCtx (msg : String) : Ctx :=
  ⟨some msg, none, none, none, none, none, none, none, none, none, false⟩

/-- Context carrying an error message and the submitted URL (the
`download_video` error paths). -/
def dlErrCtx (msg url : String) : Ctx :=
  ⟨some msg, none, none, none, none, none, none, none, none, some url, false⟩

/-- The success context of `home` lines 76-86. -/
def successCtx (yt : Handle) (streams : List VStream) (cleanUrl : String) : Ctx :=
  ⟨none, some yt.title, some (format_duration yt.length), some (commaFormat yt.views),
    some yt.author, some yt.thumbnail_url, some streams, some yt.video_id,
    some cleanUrl, none, true⟩

/-- A form submission: request method and the optional POST fields. -/
structure Request where
  method : String
  postUrl : Option String
  postQuality : Option String
deriving DecidableEq, Repr

/-- Observable collaborator effects of a handler run, in order: the URL
normalizer call, the metadata fetcher call (the only network
interaction point), directory creation, the stream retrieval call, and
server-side error logging. -/
inductive Event where
  | normCall (url : String)
  | fetchCall (url : String)
  | mkdirCall (dir : String)
  | downloadCall (filename : String)
  | logError (msg : String)
deriving DecidableEq, Repr

/-- The user-visible response of a handler. -/
inductive Response where
  | render (template : String) (ctx : Ctx)
  | badRequest (body : String)
  | fileAttachment (contentType : String) (filename : String)
  | redirect (target : String)
deriving DecidableEq, Repr

/-- Prepend already-performed effects to a handler tail result. -/
def withEvents (evs : List Event) (p : Response × List Event) : Response × List Event :=
  (p.1, evs ++ p.2)

/-- The exception boundary of `home` (views.py lines 88-96): any
PytubeError renders its own message; any other exception is logged with
full detail and rendered as the fixed generic message. -/
def homeCatch (e : PyErr) (url : String) : Response × List Event :=
  if isPytube e then
    (Response.render "home.html" (homeErrCtx (errStr e)), [])
  else
    (Response.render "home.html" (homeErrCtx "Failed to fetch video information"),
      [.logError ("Error processing URL " ++ url ++ ": " ++ errStr e)])

/-- The exception boundary of `download_video` (views.py lines 142-149):
any PytubeError renders its own message together with the submitted URL;
any other exception is logged with full detail and rendered as the fixed
generic message. -/
def dlCatch (e : PyErr) (url : String) : Response × List Event :=
  if isPytube e then
    (Response.render "home.html" (dlErrCtx (errStr e) url), [])
  else
    (Response.render "home.html" (dlErrCtx "Download failed. Please try again later." url),
      [.logError ("Download failed for " ++ url ++ ": " ++ errStr e)])

/-- The tail of `download_video` after the fetch succeeded (views.py
lines 112-140): select a stream by the quality policy (raising the
PytubeError "No suitable stream found" when none resolves), create the
downloads directory, build the sanitized filename, retrieve the stream,
and serve the file if it exists on disk (raising FileNotFoundError — not
a PytubeError — otherwise).  `dl` is the filesystem oracle for the
existence check after retrieval. -/
def afterFetch (mr : String) (dl : String → Bool) (url quality : String)
    (yt : Handle) : Response × List Event :=
  match selectStream yt.streams quality with
  | none => dlCatch (.pytube "No suitable stream found") url
  | some _ =>
    let downloadsDir := mr ++ "/downloads"
    let filename := make_filename yt.title yt.video_id
    let filepath := downloadsDir ++ "/" ++ filename
    if dl filepath then
      (Response.fileAttachment "video/mp4" filename, [.mkdirCall downloadsDir, .downloadCall filename])
    else
      withEvents [.mkdirCall downloadsDir, .downloadCall filename]
        (dlCatch (.unexpected "Downloaded file not found") url)

/-- The `download_video` handler (views.py lines 100-151).  `mr` is the
configured media root, `f` the metadata fetcher collaborator, `dl` the
filesystem oracle.  Non-POST requests redirect to home; an empty
(stripped) URL yields a 400 response before any collaborator call. -/
def download_video (mr : String) (f : String → Except PyErr Handle)
    (dl : String → Bool) (req : Request) : Response × List Event :=
  if req.method == "POST" then
    let url := pystrip (req.postUrl.getD "")
    let quality := req.postQuality.getD "highest"
    if url == "" then (Response.badRequest "No URL provided", [])
    else
      match sanitize_youtube_url url with
      | .error e => withEvents [.normCall url] (dlCatch e url)
      | .ok clean =>
        match f clean with
        | .error e => withEvents [.normCall url, .fetchCall clean] (dlCatch e url)
        | .ok yt => withEvents [.normCall url, .fetchCall clean] (afterFetch mr dl url quality yt)
  else (Response.redirect "home", [])

/-- The `home` handler (views.py lines 58-98).  On POST with a non-empty
(stripped) URL it normalizes, fetches, filters the progressive mp4
streams sorted by descending resolution and renders the success context;
errors are converted at the exception boundary. -/
def home (f : String → Except PyErr Handle) (req : Request) : Response × List Event :=
  if req.method == "POST" then
    let url := pystrip (req.postUrl.getD "")
    if url == "" then (Response.render "home.html" (homeErrCtx "Please enter a YouTube URL"), [])
    else
      match sanitize_youtube_url url with
      | .error e => withEvents [.normCall url] (homeCatch e url)
      | .ok clean =>
        match f clean with
        | .error e => withEvents [.normCall url, .fetchCall clean] (homeCatch e url)
        | .ok yt =>
          let streams := sortDesc (yt.streams.filter fun s => s.progressive && s.subtype == "mp4")
          (Response.render "home.html" (successCtx yt streams clean), [.normCall url, .fetchCall clean])
  else (Response.render "home.html" emptyCtx, [])

/-- Example stream collection 360p/480p/720p used by the witnesses. -/
def exStreams : List VStream :=
  [⟨360, true, "mp4"⟩, ⟨480, true, "mp4"⟩, ⟨720, true, "mp4"⟩]

/-- Example metadata handle used by the witnesses. -/
def exHandle : Handle :=
  ⟨"My Video! @#$%", "Author", 3661, 1234567, "http://thumb", "abc12345678", exStreams⟩


/-! ### Helper lemmas -/

theorem findSome_none {α β : Type} (f : α → Option β) :
    ∀ l : List α, (∀ a ∈ l, f a = none) → l.findSome? f = none := by
  intro l h
  exact List.findSome?_eq_none_iff.mpr h

theorem takeN_full : ∀ l : List Char, l.all isIdChar = true → takeN l.length l = some l := by
  intro l
  induction l with
  | nil => intro _; rfl
  | cons c cs ih =>
    intro h
    rw [List.all_cons, Bool.and_eq_true] at h
    simp [takeN, h.1, ih h.2]

theorem takeN_of_len (l : List Char) (h1 : l.length = 11) (h2 : l.all isIdChar = true) :
    takeN 11 l = some l := h1 ▸ takeN_full l h2

theorem takeN_none_of_short : ∀ (n : Nat) (l : List Char), l.length < n → takeN n l = none := by
  intro n
  induction n with
  | zero => intro l h; omega
  | succ n ih =>
    intro l h
    cases l with
    | nil => rfl
    | cons c cs =>
      cases hc : isIdChar c with
      | false => simp [takeN, hc]
      | true =>
        have : cs.length < n := by simp at h; omega
        simp [takeN, hc, ih cs this]

theorem takeN_none_of_bad : ∀ (n : Nat) (l : List Char),
    ((l.take n).all isIdChar) = false → takeN n l = none := by
  intro n
  induction n with
  | zero => intro l h; simp at h
  | succ n ih =>
    intro l h
    cases l with
    | nil => rfl
    | cons c cs =>
      rw [List.take_succ_cons, List.all_cons, Bool.and_eq_false_iff] at h
      cases h with
      | inl h1 => simp [takeN, h1]
      | inr h2 =>
        cases hc : isIdChar c with
        | false => simp [takeN, hc]
        | true => simp [takeN, hc, ih cs h2]

theorem stripPre_some_length :
    ∀ (p s r : List Char), stripPre p s = some r → p.length + r.length = s.length := by
  intro p
  induction p with
  | nil =>
    intro s r h
    simp [stripPre] at h
    simp [h]
  | cons a as ih =>
    intro s r h
    cases s with
    | nil => simp [stripPre] at h
    | cons b bs =>
      by_cases hab : (a == b) = true
      · rw [stripPre, if_pos hab] at h
        have := ih bs r h
        simp
        omega
      · rw [stripPre, if_neg hab] at h
        exact absurd h (by simp)

theorem stripPre_append_of_isPreB :
    ∀ (p c x : List Char), isPreB p c = true → stripPre p (c ++ x) = some (c.drop p.length ++ x) := by
  intro p
  induction p with
  | nil => intro c x _; simp [stripPre]
  | cons a as ih =>
    intro c x h
    cases c with
    | nil => simp [isPreB] at h
    | cons b bs =>
      rw [isPreB, Bool.and_eq_true] at h
      rw [List.cons_append, stripPre, if_pos h.1]
      rw [ih bs x h.2]
      simp

theorem stripPre_none_of_not_isPreB :
    ∀ (p c x : List Char), p.length ≤ c.length → isPreB p c = false →
      stripPre p (c ++ x) = none := by
  intro p
  induction p with
  | nil => intro c x _ h; simp [isPreB] at h
  | cons a as ih =>
    intro c x hl h
    cases c with
    | nil => simp at hl
    | cons b bs =>
      by_cases hab : (a == b) = true
      · rw [isPreB, hab, Bool.true_and] at h
        rw [List.cons_append, stripPre, if_pos hab]
        exact ih bs x (by simpa using hl) h
      · rw [List.cons_append, stripPre, if_neg hab]

theorem stripPre_none_of_bad :
    ∀ (p s : List Char), s.all isIdChar = true → p.all isIdChar = false →
      stripPre p s = none := by
  intro p
  induction p with
  | nil => intro s _ hp; simp at hp
  | cons a as ih =>
    intro s hs hp
    cases s with
    | nil => rfl
    | cons b bs =>
      by_cases hab : (a == b) = true
      · rw [stripPre, if_pos hab]
        rw [List.all_cons, Bool.and_eq_true] at hs
        have hb : isIdChar b = true := hs.1
        have ha : isIdChar a = true := by rwa [eq_of_beq hab]
        rw [List.all_cons, ha, Bool.true_and] at hp
        exact ih bs hs.2 hp
      · rw [stripPre, if_neg hab]

theorem isPreB_refl : ∀ l : List Char, isPreB l l = true := by
  intro l
  induction l with
  | nil => rfl
  | cons a as ih => simp [isPreB, ih]

/-! ### Search lemmas for the URL normalizer -/

theorem tryAt_nomatch (lit : List Char)
    (hlit : ∀ pre ∈ schemeHosts, ((pre ++ lit).all isIdChar) = false)
    (s : List Char) (hs : s.all isIdChar = true) : tryAt lit s = none := by
  apply findSome_none
  intro pre hpre
  rw [stripPre_none_of_bad (pre ++ lit) s hs (hlit pre hpre)]

theorem search_nomatch (lit : List Char)
    (hlit : ∀ pre ∈ schemeHosts, ((pre ++ lit).all isIdChar) = false) :
    ∀ s : List Char, s.all isIdChar = true → search lit s = none := by
  intro s
  induction s with
  | nil => intro _; simpa [search] using tryAt_nomatch lit hlit [] rfl
  | cons c cs ih =>
    intro h
    have h2 : cs.all isIdChar = true := by
      rw [List.all_cons, Bool.and_eq_true] at h
      exact h.2
    simp [search, tryAt_nomatch lit hlit _ h, ih h2]

theorem tryAt_append_none (lit conc id : List Char)
    (hlen : id.length = 11)
    (hpos : posOk lit conc = true) :
    tryAt lit (conc ++ id) = none := by
  apply findSome_none
  intro pre hpre
  have hp : (if (pre ++ lit).length ≤ conc.length then
      !(isPreB (pre ++ lit) conc && ((conc.drop (pre ++ lit).length).take 11).all isIdChar)
    else true) = true := by
    have := (List.all_eq_true.mp hpos) pre hpre
    simpa [posOk] using this
  by_cases hle : (pre ++ lit).length ≤ conc.length
  · rw [if_pos hle] at hp
    by_cases hpb : isPreB (pre ++ lit) conc = true
    · have hbad : ((conc.drop (pre ++ lit).length).take 11).all isIdChar = false := by
        rw [hpb, Bool.true_and] at hp
        simpa using hp
      rw [stripPre_append_of_isPreB _ _ id hpb]
      show takeN 11 (conc.drop (pre ++ lit).length ++ id) = none
      apply takeN_none_of_bad
      rw [List.take_append_eq_append_take, List.all_append, hbad]
      rfl
    · have hf : isPreB (pre ++ lit) conc = false := by
        cases hv : isPreB (pre ++ lit) conc
        · rfl
        · exact absurd hv hpb
      rw [stripPre_none_of_not_isPreB _ _ id hle hf]
  · cases hst : stripPre (pre ++ lit) (conc ++ id) with
    | none => simp [hst]
    | some rest =>
      have hl := stripPre_some_length _ _ _ hst
      rw [List.length_append, List.length_append, hlen] at hl
      rw [List.length_append] at hle
      have hr : rest.length < 11 := by omega
      simp [hst, takeN_none_of_short 11 rest hr]

theorem search_append_none (lit : List Char)
    (hlit : ∀ pre ∈ schemeHosts, ((pre ++ lit).all isIdChar) = false)
    (id : List Char) (hid : id.all isIdChar = true) (hlen : id.length = 11) :
    ∀ conc : List Char, noHit lit conc = true → search lit (conc ++ id) = none := by
  intro conc
  induction conc with
  | nil => intro _; simpa using search_nomatch lit hlit id hid
  | cons c cs ih =>
    intro h
    have h1 : posOk lit (c :: cs) = true ∧ noHit lit cs = true := by
      simpa [noHit] using h
    have ht : tryAt lit ((c :: cs) ++ id) = none :=
      tryAt_append_none lit (c :: cs) id hlen h1.1
    rw [List.cons_append] at ht ⊢
    simp [search, ht, ih h1.2]

theorem candFail (lit id : List Char) (hlen : id.length = 11)
    (pre : List Char) (hpre : pre ≠ []) :
    (match stripPre (pre ++ lit) (lit ++ id) with
     | some rest => takeN 11 rest
     | none => none) = none := by
  cases hst : stripPre (pre ++ lit) (lit ++ id) with
  | none => rfl
  | some rest =>
    have hl := stripPre_some_length _ _ _ hst
    rw [List.length_append, List.length_append, hlen] at hl
    have hp : 0 < pre.length := by
      cases pre with
      | nil => exact absurd rfl hpre
      | cons x xs => simp
    have hr : rest.length < 11 := by omega
    simp [takeN_none_of_short 11 rest hr]

theorem tryAt_self (lit id : List Char) (hid : id.all isIdChar = true)
    (hlen : id.length = 11) : tryAt lit (lit ++ id) = some id := by
  have h1 := candFail lit id hlen "https://www.".data (by decide)
  have h2 := candFail lit id hlen "https://m.".data (by decide)
  have h3 := candFail lit id hlen "https://".data (by decide)
  have h4 := candFail lit id hlen "http://www.".data (by decide)
  have h5 := candFail lit id hlen "http://m.".data (by decide)
  have h6 := candFail lit id hlen "http://".data (by decide)
  have h7 := candFail lit id hlen "www.".data (by decide)
  have h8 := candFail lit id hlen "m.".data (by decide)
  have h9 : stripPre ("".data ++ lit) (lit ++ id) = some id := by
    rw [List.nil_append, stripPre_append_of_isPreB lit lit id (isPreB_refl lit)]
    simp [List.drop_length]
  simp only [tryAt, schemeHosts, List.findSome?, h1, h2, h3, h4, h5, h6, h7, h8, h9,
    takeN_of_len id hlen hid]

theorem search_self (lit id : List Char) (hne : lit ≠ [])
    (hid : id.all isIdChar = true) (hlen : id.length = 11) :
    search lit (lit ++ id) = some id := by
  cases lit with
  | nil => exact absurd rfl hne
  | cons c lt =>
    have ht := tryAt_self (c :: lt) id hid hlen
    rw [List.cons_append] at ht ⊢
    simp [search, ht]


/-! ### C1 and C2 -/

/-- C1: for every valid 11-character video identifier (the regex class
a-z A-Z 0-9 underscore hyphen), the URL Normalizer maps each of the four
accepted URL shapes youtu.be/id, youtube.com/watch?v=id,
youtube.com/embed/id and youtube.com/v/id to the same canonical URL
https://www.youtube.com/watch?v=id. -/
theorem C1_normalizer_four_shapes_canonical (id : List Char)
    (hlen : id.length = 11) (hid : id.all isIdChar = true) :
    sanitize_youtube_url (String.mk (lit1 ++ id)) =
        .ok ("https://www.youtube.com/watch?v=" ++ String.mk id) ∧
    sanitize_youtube_url (String.mk (lit2 ++ id)) =
        .ok ("https://www.youtube.com/watch?v=" ++ String.mk id) ∧
    sanitize_youtube_url (String.mk (lit3 ++ id)) =
        .ok ("https://www.youtube.com/watch?v=" ++ String.mk id) ∧
    sanitize_youtube_url (String.mk (lit4 ++ id)) =
        .ok ("https://www.youtube.com/watch?v=" ++ String.mk id) := by
  have hnm1 : ∀ pre ∈ schemeHosts, ((pre ++ lit1).all isIdChar) = false := by decide
  have hnm2 : ∀ pre ∈ schemeHosts, ((pre ++ lit2).all isIdChar) = false := by decide
  have hnm3 : ∀ pre ∈ schemeHosts, ((pre ++ lit3).all isIdChar) = false := by decide
  have hs1 := search_self lit1 id (by decide) hid hlen
  have hs2 := search_self lit2 id (by decide) hid hlen
  have hs3 := search_self lit3 id (by decide) hid hlen
  have hs4 := search_self lit4 id (by decide) hid hlen
  have e21 := search_append_none lit1 hnm1 id hid hlen lit2 (by decide)
  have e31 := search_append_none lit1 hnm1 id hid hlen lit3 (by decide)
  have e32 := search_append_none lit2 hnm2 id hid hlen lit3 (by decide)
  have e41 := search_append_none lit1 hnm1 id hid hlen lit4 (by decide)
  have e42 := search_append_none lit2 hnm2 id hid hlen lit4 (by decide)
  have e43 := search_append_none lit3 hnm3 id hid hlen lit4 (by decide)
  have hbeq : (id.length == 11) = true := by simp [hlen]
  refine ⟨?_, ?_, ?_, ?_⟩ <;>
    simp [sanitize_youtube_url, sanitizeList, patterns, List.findSome?,
      hs1, hs2, hs3, hs4, e21, e31, e32, e41, e42, e43, hbeq]

/-- Witness for C1 at the identifier dQw4w9WgXcQ. -/
theorem C1_witness :
    sanitize_youtube_url (String.mk (lit1 ++ "dQw4w9WgXcQ".data)) =
        .ok ("https://www.youtube.com/watch?v=" ++ String.mk "dQw4w9WgXcQ".data) ∧
    sanitize_youtube_url (String.mk (lit2 ++ "dQw4w9WgXcQ".data)) =
        .ok ("https://www.youtube.com/watch?v=" ++ String.mk "dQw4w9WgXcQ".data) ∧
    sanitize_youtube_url (String.mk (lit3 ++ "dQw4w9WgXcQ".data)) =
        .ok ("https://www.youtube.com/watch?v=" ++ String.mk "dQw4w9WgXcQ".data) ∧
    sanitize_youtube_url (String.mk (lit4 ++ "dQw4w9WgXcQ".data)) =
        .ok ("https://www.youtube.com/watch?v=" ++ String.mk "dQw4w9WgXcQ".data) :=
  C1_normalizer_four_shapes_canonical "dQw4w9WgXcQ".data (by decide) (by decide)

/-- C2: any input string for which every one of the four patterns either
fails to match or captures a token whose length is not 11 is rejected by
the Normalizer with the RegexMatchError carrying "Invalid YouTube URL
format"; no canonical URL is returned for such an input. -/
theorem C2_normalizer_rejects (url : String)
    (h : patterns.all (patMisses url.data) = true) :
    sanitize_youtube_url url = .error (.regexMatch "Invalid YouTube URL format") := by
  have hall := List.all_eq_true.mp h
  have hnone : sanitizeList url.data = none := by
    apply findSome_none
    intro lit hlit
    have hm := hall lit hlit
    unfold patMisses at hm
    cases hs : search lit url.data with
    | none => simp [hs]
    | some tok =>
      rw [hs] at hm
      have hf : (tok.length == 11) = false := by
        simpa [bne] using hm
      simp [hs, hf]
  simp [sanitize_youtube_url, hnone]

/-- Witness for C2 at the input "notaurl". -/
theorem C2_witness :
    patterns.all (patMisses "notaurl".data) = true ∧
    sanitize_youtube_url "notaurl" = .error (.regexMatch "Invalid YouTube URL format") :=
  ⟨by decide, C2_normalizer_rejects "notaurl" (by decide)⟩


/-! ### C3 -/

/-- C3 counterexample: with a service failing on every attempt and the
default bound of 3, the fetcher performs exactly the backoff waits 1 and
2 — not the schedule 1, 2 and 4 asserted by the claim, because
time.sleep runs only while attempts remain and no wait follows the final
attempt. -/
theorem C3_counterexample :
    get_yt_object (fun _ => (none : Option Unit)) 3 =
      (.error (.pytube "Could not initialize YouTube object. Check your network or try another video."),
        3, [1, 2]) ∧
    ([1, 2] : List Nat) ≠ [1, 2, 4] := ⟨rfl, by decide⟩

/-- C3 (amended): with the default bound of 3, a service that fails on
every attempt causes exactly 3 construction attempts, the backoff waits
1 and 2 (total 3; no wait after the final attempt) and the generic
could-not-initialize PytubeError; a service that fails twice and then
succeeds yields the handle after exactly 3 attempts with the same waits,
whose total is at least 1+2 time units. -/
theorem C3_fetcher_retry {α : Type} (svc : Nat → Option α) :
    ((svc 0 = none ∧ svc 1 = none ∧ svc 2 = none) →
      get_yt_object svc 3 =
        (.error (.pytube "Could not initialize YouTube object. Check your network or try another video."),
          3, [1, 2])) ∧
    (∀ a : α, svc 0 = none → svc 1 = none → svc 2 = some a →
      get_yt_object svc 3 = (.ok a, 3, [1, 2]) ∧ 1 + 2 ≤ ([1, 2] : List Nat).sum) := by
  constructor
  · rintro ⟨h0, h1, h2⟩
    simp [get_yt_object, getYtAux, h0, h1, h2]
  · intro a h0 h1 h2
    refine ⟨?_, by decide⟩
    simp [get_yt_object, getYtAux, h0, h1, h2]

/-- Witness for the amended C3: both branches at concrete services. -/
theorem C3_witness :
    get_yt_object (fun _ => (none : Option Nat)) 3 =
      (.error (.pytube "Could not initialize YouTube object. Check your network or try another video."),
        3, [1, 2]) ∧
    get_yt_object (fun n => if n == 2 then some 7 else (none : Option Nat)) 3 =
      (.ok 7, 3, [1, 2]) := by
  constructor
  · exact (C3_fetcher_retry (fun _ => (none : Option Nat))).1 ⟨rfl, rfl, rfl⟩
  · exact ((C3_fetcher_retry (fun n => if n == 2 then some 7 else (none : Option Nat))).2
      7 rfl rfl rfl).1

/-! ### C8 -/

/-- C8 counterexample: at 86400 seconds the formatter emits
"1 day, 0:00:00", which is not the H:MM:SS rendering of any
decomposition of 86400 seconds into hours, minutes below 60 and seconds
below 60 (the only such decomposition renders as "24:00:00"); the
claim as stated is false for inputs of one day or more. -/
theorem C8_counterexample :
    ¬ ∃ (H M S : Nat), 86400 = H * 3600 + M * 60 + S ∧ M < 60 ∧ S < 60 ∧
      format_duration 86400 = toString H ++ ":" ++ pad2 M ++ ":" ++ pad2 S := by
  rintro ⟨H, M, S, h1, h2, h3, h4⟩
  have hH : H = 24 := by omega
  have hM : M = 0 := by omega
  have hS : S = 0 := by omega
  subst hH; subst hM; subst hS
  exact absurd h4 (by decide)

/-- C8 (amended): below 86400 seconds (one day) the Duration Formatter
produces exactly the H:MM:SS-style zero-padded rendering of the unique
hour/minute/second decomposition; 0 maps to "0:00:00" and 3661 maps to
"1:01:01".  (At one day and beyond, the Python str(timedelta) rendering
prefixes a day count instead.) -/
theorem C8_duration_formatter :
    (∀ s : Nat, s < 86400 → ∃ H M S : Nat, s = H * 3600 + M * 60 + S ∧ M < 60 ∧ S < 60 ∧
      format_duration s = toString H ++ ":" ++ pad2 M ++ ":" ++ pad2 S) ∧
    format_duration 0 = "0:00:00" ∧ format_duration 3661 = "1:01:01" := by
  refine ⟨?_, by decide, by decide⟩
  intro s hs
  refine ⟨s / 3600, s % 3600 / 60, s % 60, by omega, by omega, by omega, ?_⟩
  simp [format_duration, Nat.div_eq_of_lt hs, Nat.mod_eq_of_lt hs]

/-- Witness for the amended C8 at 3661 seconds. -/
theorem C8_witness :
    (3661 < 86400) ∧ (∃ H M S : Nat, 3661 = H * 3600 + M * 60 + S ∧ M < 60 ∧ S < 60 ∧
      format_duration 3661 = toString H ++ ":" ++ pad2 M ++ ":" ++ pad2 S) :=
  ⟨by decide, C8_duration_formatter.1 3661 (by decide)⟩


/-! ### Stream selection lemmas -/

theorem le_pickHigh_left (a b : VStream) : a.resolution ≤ (pickHigh a b).resolution := by
  unfold pickHigh; split <;> omega

theorem le_pickHigh_right (a b : VStream) : b.resolution ≤ (pickHigh a b).resolution := by
  unfold pickHigh; split <;> omega

theorem pickHigh_cases (a b : VStream) : pickHigh a b = a ∨ pickHigh a b = b := by
  unfold pickHigh; split
  · right; rfl
  · left; rfl

theorem pickLow_le_left (a b : VStream) : (pickLow a b).resolution ≤ a.resolution := by
  unfold pickLow; split <;> omega

theorem pickLow_le_right (a b : VStream) : (pickLow a b).resolution ≤ b.resolution := by
  unfold pickLow; split <;> omega

theorem pickLow_cases (a b : VStream) : pickLow a b = a ∨ pickLow a b = b := by
  unfold pickLow; split
  · right; rfl
  · left; rfl

theorem foldl_pickHigh_mem : ∀ (l : List VStream) (s : VStream),
    l.foldl pickHigh s = s ∨ l.foldl pickHigh s ∈ l := by
  intro l
  induction l with
  | nil => intro s; left; rfl
  | cons t ts ih =>
    intro s
    rw [List.foldl_cons]
    rcases ih (pickHigh s t) with h | h
    · rcases pickHigh_cases s t with h2 | h2
      · left; rw [h, h2]
      · right; rw [h, h2]; exact List.mem_cons_self t ts
    · right; exact List.mem_cons_of_mem t h

theorem foldl_pickHigh_ge : ∀ (l : List VStream) (s : VStream),
    s.resolution ≤ (l.foldl pickHigh s).resolution ∧
    ∀ t ∈ l, t.resolution ≤ (l.foldl pickHigh s).resolution := by
  intro l
  induction l with
  | nil => intro s; exact ⟨le_refl _, by simp⟩
  | cons u us ih =>
    intro s
    rw [List.foldl_cons]
    have hih := ih (pickHigh s u)
    refine ⟨le_trans (le_pickHigh_left s u) hih.1, ?_⟩
    intro t ht
    rcases List.mem_cons.mp ht with h | h
    · subst h; exact le_trans (le_pickHigh_right s t) hih.1
    · exact hih.2 t h

theorem foldl_pickLow_mem : ∀ (l : List VStream) (s : VStream),
    l.foldl pickLow s = s ∨ l.foldl pickLow s ∈ l := by
  intro l
  induction l with
  | nil => intro s; left; rfl
  | cons t ts ih =>
    intro s
    rw [List.foldl_cons]
    rcases ih (pickLow s t) with h | h
    · rcases pickLow_cases s t with h2 | h2
      · left; rw [h, h2]
      · right; rw [h, h2]; exact List.mem_cons_self t ts
    · right; exact List.mem_cons_of_mem t h

theorem foldl_pickLow_le : ∀ (l : List VStream) (s : VStream),
    (l.foldl pickLow s).resolution ≤ s.resolution ∧
    ∀ t ∈ l, (l.foldl pickLow s).resolution ≤ t.resolution := by
  intro l
  induction l with
  | nil => intro s; exact ⟨le_refl _, by simp⟩
  | cons u us ih =>
    intro s
    rw [List.foldl_cons]
    have hih := ih (pickLow s u)
    refine ⟨le_trans hih.1 (pickLow_le_left s u), ?_⟩
    intro t ht
    rcases List.mem_cons.mp ht with h | h
    · subst h; exact le_trans hih.1 (pickLow_le_right s t)
    · exact hih.2 t h

/-! ### C4 -/

/-- C4: the Download Handler selection policy — "highest" selects a
stream of maximum resolution, "lowest" one of minimum resolution, any
other quality value dispatches to the exact resolution-label lookup
(whose result, when any, is a member with exactly that label); and when
no stream resolves the handler renders the "No suitable stream found"
error. -/
theorem C4_quality_policy (ss : List VStream) (q : String) :
    (∀ s, selectStream ss "highest" = some s →
       s ∈ ss ∧ ∀ t ∈ ss, t.resolution ≤ s.resolution) ∧
    (∀ s, selectStream ss "lowest" = some s →
       s ∈ ss ∧ ∀ t ∈ ss, s.resolution ≤ t.resolution) ∧
    (q ≠ "highest" → q ≠ "lowest" →
       selectStream ss q = get_by_resolution ss q ∧
       ∀ s, get_by_resolution ss q = some s → s ∈ ss ∧ resLabel s = q) ∧
    (∀ mr dl url yt, selectStream yt.streams q = none →
       afterFetch mr dl url q yt =
         (Response.render "home.html" (dlErrCtx "No suitable stream found" url), [])) := by
  refine ⟨?_, ?_, ?_, ?_⟩
  · intro s hsel
    simp only [selectStream] at hsel
    rw [if_pos (by decide)] at hsel
    cases ss with
    | nil => simp [get_highest_resolution] at hsel
    | cons a rest =>
      simp only [get_highest_resolution, Option.some_inj] at hsel
      subst hsel
      have hge := foldl_pickHigh_ge rest a
      constructor
      · rcases foldl_pickHigh_mem rest a with h | h
        · rw [h]; exact List.mem_cons_self a rest
        · exact List.mem_cons_of_mem a h
      · intro t ht
        rcases List.mem_cons.mp ht with h | h
        · subst h; exact hge.1
        · exact hge.2 t h
  · intro s hsel
    simp only [selectStream] at hsel
    rw [if_neg (by decide), if_pos (by decide)] at hsel
    cases ss with
    | nil => simp [get_lowest_resolution] at hsel
    | cons a rest =>
      simp only [get_lowest_resolution, Option.some_inj] at hsel
      subst hsel
      have hle := foldl_pickLow_le rest a
      constructor
      · rcases foldl_pickLow_mem rest a with h | h
        · rw [h]; exact List.mem_cons_self a rest
        · exact List.mem_cons_of_mem a h
      · intro t ht
        rcases List.mem_cons.mp ht with h | h
        · subst h; exact hle.1
        · exact hle.2 t h
  · intro hq1 hq2
    have hb1 : (q == "highest") = false := beq_eq_false_iff_ne.mpr hq1
    have hb2 : (q == "lowest") = false := beq_eq_false_iff_ne.mpr hq2
    refine ⟨by simp [selectStream, hb1, hb2], ?_⟩
    intro s hsel
    unfold get_by_resolution at hsel
    have hp := List.find?_some hsel
    exact ⟨List.mem_of_find?_eq_some hsel, eq_of_beq (by simpa using hp)⟩
  · intro mr dl url yt h
    simp [afterFetch, h, dlCatch, isPytube, errStr]

/-- Witness for C4 on the 360p/480p/720p example collection. -/
theorem C4_witness :
    ((⟨720, true, "mp4"⟩ : VStream) ∈ exStreams ∧
      ∀ t ∈ exStreams, t.resolution ≤ (⟨720, true, "mp4"⟩ : VStream).resolution) ∧
    ((⟨360, true, "mp4"⟩ : VStream) ∈ exStreams ∧
      ∀ t ∈ exStreams, (⟨360, true, "mp4"⟩ : VStream).resolution ≤ t.resolution) ∧
    ((⟨480, true, "mp4"⟩ : VStream) ∈ exStreams ∧ resLabel ⟨480, true, "mp4"⟩ = "480p") ∧
    afterFetch "media" (fun _ => true) "u" "1080p" exHandle =
      (Response.render "home.html" (dlErrCtx "No suitable stream found" "u"), []) := by
  refine ⟨?_, ?_, ?_, ?_⟩
  · exact (C4_quality_policy exStreams "480p").1 ⟨720, true, "mp4"⟩ (by decide)
  · exact (C4_quality_policy exStreams "480p").2.1 ⟨360, true, "mp4"⟩ (by decide)
  · exact ((C4_quality_policy exStreams "480p").2.2.1 (by decide) (by decide)).2
      ⟨480, true, "mp4"⟩ (by decide)
  · exact (C4_quality_policy exStreams "1080p").2.2.2 "media" (fun _ => true) "u" exHandle
      (by decide)

/-! ### C5 -/

/-- C5: the download filename is built by keeping only alphanumeric,
space, hyphen and underscore characters of the title, trimming trailing
whitespace, and appending underscore, identifier and ".mp4" — the code
policy coincides with the policy in the words of the spec, and the title
"My Video! @#$%" with identifier abc12345678 yields exactly
"My Video_abc12345678.mp4". -/
theorem C5_filename_policy :
    (∀ title vid : String, make_filename title vid = specFilename title vid) ∧
    make_filename "My Video! @#$%" "abc12345678" = "My Video_abc12345678.mp4" := by
  constructor
  · intro title vid
    unfold make_filename specFilename safe_title
    have hf : (title.data.filter fun c => c.isAlphanum || c == ' ' || c == '-' || c == '_') =
        (title.data.filter fun c =>
          !(!c.isAlphanum && !(c == ' ') && !(c == '-') && !(c == '_'))) := by
      apply List.filter_congr
      intro c _
      cases c.isAlphanum <;> cases (c == ' ') <;> cases (c == '-') <;> cases (c == '_') <;> rfl
    rw [hf]
  · decide


/-! ### C6, C9, C10 -/

/-- C6: an empty (or absent) url field on a POST to the download
endpoint yields the 400-class bad-request response with an empty
collaborator trace: in particular the Metadata Fetcher is never
invoked. -/
theorem C6_empty_url_bad_request (mr : String) (f : String → Except PyErr Handle)
    (dl : String → Bool) (req : Request) (hm : req.method = "POST")
    (hu : req.postUrl = none ∨ req.postUrl = some "") :
    download_video mr f dl req = (Response.badRequest "No URL provided", []) := by
  have hempty : pystrip "" = "" := by decide
  rcases hu with h | h <;> simp [download_video, hm, h, hempty]

/-- Witness for C6 on a POST carrying an empty url field. -/
theorem C6_witness :
    download_video "m" (fun _ => Except.error (.pytube "x")) (fun _ => false)
        ⟨"POST", some "", none⟩ =
      (Response.badRequest "No URL provided", []) :=
  C6_empty_url_bad_request "m" _ _ _ rfl (Or.inr rfl)

/-- C9: a download submission without a quality field behaves exactly as
one whose quality is "highest" (the default of request.POST.get), and
the "highest" dispatch is the maximum-resolution selection. -/
theorem C9_default_quality_highest (mr : String) (f : String → Except PyErr Handle)
    (dl : String → Bool) (m : String) (ou : Option String) :
    download_video mr f dl ⟨m, ou, none⟩ = download_video mr f dl ⟨m, ou, some "highest"⟩ ∧
    ∀ ss : List VStream, selectStream ss "highest" = get_highest_resolution ss :=
  ⟨rfl, fun _ => rfl⟩

theorem dropWhile_all_nil {α : Type} (p : α → Bool) :
    ∀ l : List α, l.all p = true → l.dropWhile p = [] := by
  intro l
  induction l with
  | nil => intro _; rfl
  | cons a as ih =>
    intro h
    rw [List.all_cons, Bool.and_eq_true] at h
    simp [List.dropWhile_cons, h.1, ih h.2]

theorem pystrip_all_space (s : String) (h : s.data.all pyIsSpace = true) :
    pystrip s = "" := by
  unfold pystrip
  rw [dropWhile_all_nil pyIsSpace s.data h]
  decide

/-- C10: both handlers strip the submitted url before the emptiness
check, so a whitespace-only url is rejected exactly like an empty one —
an error re-render on the info endpoint and a 400 response on the
download endpoint — with an empty collaborator trace: neither the
Normalizer nor the Fetcher is invoked. -/
theorem C10_whitespace_url_rejected (mr : String) (f : String → Except PyErr Handle)
    (dl : String → Bool) (req : Request) (hm : req.method = "POST")
    (hw : (req.postUrl.getD "").data.all pyIsSpace = true) :
    home f req =
      (Response.render "home.html" (homeErrCtx "Please enter a YouTube URL"), []) ∧
    download_video mr f dl req = (Response.badRequest "No URL provided", []) := by
  have he := pystrip_all_space _ hw
  constructor <;> simp [home, download_video, hm, he]

/-- Witness for C10 on a POST whose url is three spaces. -/
theorem C10_witness :
    home (fun _ => Except.error (.pytube "x")) ⟨"POST", some "   ", none⟩ =
      (Response.render "home.html" (homeErrCtx "Please enter a YouTube URL"), []) ∧
    download_video "m" (fun _ => Except.error (.pytube "x")) (fun _ => false)
        ⟨"POST", some "   ", none⟩ =
      (Response.badRequest "No URL provided", []) :=
  C10_whitespace_url_rejected "m" _ _ ⟨"POST", some "   ", none⟩ rfl (by decide)

/-! ### C7 -/

/-- C7: the user-visible response depends on an unrecognized exception
only through the fact that it is unrecognized: two fetcher collaborators
that agree everywhere except possibly in the message text carried inside
unexpected (non-PytubeError) failures produce identical responses from
both handlers on every request — the text reaches only the server-side
log, never the response. -/
theorem C7_generic_error_noninterference (mr : String)
    (f g : String → Except PyErr Handle) (dl : String → Bool) (req : Request)
    (hfg : ∀ u, f u = g u ∨
      ∃ m1 m2, f u = .error (.unexpected m1) ∧ g u = .error (.unexpected m2)) :
    (home f req).1 = (home g req).1 ∧
    (download_video mr f dl req).1 = (download_video mr g dl req).1 := by
  cases hm : (req.method == "POST") with
  | false => constructor <;> simp [home, download_video, hm]
  | true =>
    cases hu : (pystrip (req.postUrl.getD "") == "") with
    | true => constructor <;> simp [home, download_video, hm, hu]
    | false =>
      cases hs : sanitize_youtube_url (pystrip (req.postUrl.getD "")) with
      | error e => constructor <;> simp [home, download_video, hm, hu, hs]
      | ok clean =>
        rcases hfg clean with he | ⟨m1, m2, h1, h2⟩
        · constructor <;> simp [home, download_video, hm, hu, hs, he]
        · constructor <;>
            simp [home, download_video, hm, hu, hs, h1, h2, homeCatch, dlCatch,
              withEvents, isPytube]

/-- Witness for C7: two collaborators whose unexpected failures carry
different internal texts give the same responses. -/
theorem C7_witness :
    (home (fun _ => Except.error (.unexpected "boom A"))
        ⟨"POST", some "youtu.be/dQw4w9WgXcQ", none⟩).1 =
      (home (fun _ => Except.error (.unexpected "boom B"))
        ⟨"POST", some "youtu.be/dQw4w9WgXcQ", none⟩).1 ∧
    (download_video "m" (fun _ => Except.error (.unexpected "boom A")) (fun _ => false)
        ⟨"POST", some "youtu.be/dQw4w9WgXcQ", none⟩).1 =
      (download_video "m" (fun _ => Except.error (.unexpected "boom B")) (fun _ => false)
        ⟨"POST", some "youtu.be/dQw4w9WgXcQ", none⟩).1 :=
  C7_generic_error_noninterference "m" _ _ _ _
    (fun _ => Or.inr ⟨"boom A", "boom B", rfl, rfl⟩)

end YtDl
